import Mathlib

/-!
Shallow embedding of the aevo grid-trading client (src/aevo.py and
src/aevo_trade.py) and proofs about its fill-driven order replacement,
connection management, subscription registry, and order signing.

Numeric values that Python holds as floats are modelled as rationals.
Because the standard rational operations are irreducible for kernel
evaluation, the embedding builds its arithmetic from the reducible
smart constructor mkRat; bridging lemmas identify each operation with
the corresponding standard operation on the rationals.
-/

namespace Aevo

/-- Executable addition on the rationals (equals the standard one, see
qAdd_eq). -/
def qAdd (a b : ℚ) : ℚ := mkRat (a.num * b.den + b.num * a.den) (a.den * b.den)

/-- Executable subtraction on the rationals (equals the standard one, see
qSub_eq). -/
def qSub (a b : ℚ) : ℚ := mkRat (a.num * b.den - b.num * a.den) (a.den * b.den)

/-- Executable multiplication on the rationals (equals the standard one, see
qMul_eq). -/
def qMul (a b : ℚ) : ℚ := mkRat (a.num * b.num) (a.den * b.den)

/-- Executable division of a rational by a power of ten (equals the standard
one, see qDivPow10_eq). -/
def qDivPow10 (x : ℚ) (n : ℕ) : ℚ := mkRat x.num (x.den * 10 ^ n)

/-- Executable multiplication of a rational by a power of ten. -/
def qMulPow10 (x : ℚ) (n : ℕ) : ℚ := mkRat (x.num * 10 ^ n) x.den

/-- Executable floor of a rational. -/
def ratFloor (x : ℚ) : ℤ := x.num / x.den

/-- Python round-half-to-even of a rational to the nearest integer: the
behaviour of the builtin round(x) and of round(x, 0).  The fractional part
x - floor x is compared with one half by cross-multiplication so that the
definition evaluates by kernel reduction. -/
def pyRoundHalfEven (x : ℚ) : ℤ :=
  let f := ratFloor x
  let twiceFracNum := 2 * (x.num - f * x.den)
  if twiceFracNum < (x.den : ℤ) then f
  else if (x.den : ℤ) < twiceFracNum then f + 1
  else if f % 2 = 0 then f else f + 1

/-- Python round(x, n) for a nonnegative ndigits n: round-half-to-even at
n decimal digits. -/
def pyRound (x : ℚ) (n : ℕ) : ℚ :=
  mkRat (pyRoundHalfEven (qMulPow10 x n)) (10 ^ n)

/-- Python int() applied to a numeric value: truncation toward zero. -/
def pyIntOfRat (x : ℚ) : ℤ := x.num.tdiv x.den

/-- Python str.lower on one character, restricted to ASCII letters (the
only case folding relevant to the side field values the client handles). -/
def pyLowerChar (c : Char) : Char :=
  if 'A' ≤ c ∧ c ≤ 'Z' then Char.ofNat (c.toNat + 32) else c

/-- Python str.lower on a whole string (ASCII case folding). -/
def pyLower (s : String) : String :=
  String.mk (s.data.map pyLowerChar)

/-- Numeric value of a list of decimal digit characters. -/
def natOfDigits (l : List Char) : ℕ :=
  l.foldl (fun a c => a * 10 + (c.toNat - 48)) 0

/-- True when the list is a nonempty run of decimal digits. -/
def allDigits (l : List Char) : Bool :=
  !l.isEmpty && l.all Char.isDigit

/-- Splits a character list at every occurrence of a separator, the
helper behind the decimal parsers and the ticker-channel asset
extraction. -/
def splitChar (sep : Char) : List Char → List Char → List (List Char)
  | [], acc => [acc.reverse]
  | c :: rest, acc =>
      if c = sep then acc.reverse :: splitChar sep rest []
      else splitChar sep rest (c :: acc)

/-- Python float(s) on the decimal-literal subset actually exchanged on the
wire: optional sign, digits, optional fractional part.  None models the
ValueError raised on anything else (exponents, specials and whitespace are
outside the modelled subset). -/
def pyFloatOfString (s : String) : Option ℚ :=
  let signBody : ℤ × List Char :=
    match s.data with
    | '-' :: rest => (-1, rest)
    | '+' :: rest => (1, rest)
    | l => (1, l)
  match splitChar '.' signBody.2 [] with
  | [intPart] =>
      if allDigits intPart then
        some (mkRat (signBody.1 * natOfDigits intPart) 1)
      else none
  | [intPart, fracPart] =>
      if allDigits intPart && allDigits fracPart then
        some (mkRat
          (signBody.1 * (natOfDigits intPart * 10 ^ fracPart.length + natOfDigits fracPart))
          (10 ^ fracPart.length))
      else none
  | _ => none

/-- Python int(s) on the decimal-literal subset: optional sign and digits;
None models the ValueError raised on anything else. -/
def pyIntOfString (s : String) : Option ℤ :=
  let signBody : ℤ × List Char :=
    match s.data with
    | '-' :: rest => (-1, rest)
    | '+' :: rest => (1, rest)
    | l => (1, l)
  if allDigits signBody.2 then
    some (signBody.1 * natOfDigits signBody.2)
  else none

/-- AevoClient.calculate_opposite_price: subtract the grid interval when
is_buy holds, add it otherwise, then round to price_decimals places. -/
def calculate_opposite_price (filled_price : ℚ) (is_buy : Bool) (grid_interval : ℚ)
    (price_decimals : ℕ) : ℚ :=
  let opposite_price :=
    if is_buy then qSub filled_price grid_interval else qAdd filled_price grid_interval
  pyRound opposite_price price_decimals

/-- The fill object of a fills-channel message: the five fields that
AevoClient.handle_fills_message extracts with .get, each possibly absent.
Values arrive as wire strings and are converted by the handler. -/
structure FillData where
  order_id : Option String := none
  price : Option String := none
  filled : Option String := none
  side : Option String := none
  instrument_id : Option String := none
  deriving DecidableEq

/-- The arguments that handle_fills_message passes to
AevoClient.create_order for the replacement order. -/
structure CreateOrderCmd where
  instrument_id : ℤ
  is_buy : Bool
  limit_price : ℚ
  quantity : ℚ
  post_only : Bool
  deriving DecidableEq

instance {α β : Type} [DecidableEq α] [DecidableEq β] : DecidableEq (Except α β)
  | .error a, .error b =>
      match decEq a b with
      | isTrue h => isTrue (h ▸ rfl)
      | isFalse h => isFalse fun he => h (by cases he; rfl)
  | .error _, .ok _ => isFalse (by intro h; cases h)
  | .ok _, .error _ => isFalse (by intro h; cases h)
  | .ok a, .ok b =>
      match decEq a b with
      | isTrue h => isTrue (h ▸ rfl)
      | isFalse h => isFalse fun he => h (by cases he; rfl)

/-- Result of one run of handle_fills_message.  The submitted constructor
records the single create_order call together with the outcome of that
call; because the source wraps the call in try/except and only logs the
exception, a submission error is carried in the result instead of being
re-raised, and every run of the handler returns normally. -/
inductive FillOutcome where
  | missingFill
  | missingFields
  | conversionError
  | submitted (cmd : CreateOrderCmd) (result : Except String String)
  deriving DecidableEq

/-- AevoClient.handle_fills_message.  The fill argument models
message.get("data", \x7b\x7d).get("fill"); the all([...]) presence test uses
Python truthiness, so a missing field and an empty string are both
rejected; float()/int() conversion failure aborts the fill; otherwise the
opposite-side replacement order is created with post_only True, and an
exception from create_order (the submit parameter) is logged, not
propagated. -/
def handle_fills_message (fill : Option FillData) (grid_interval : ℤ)
    (price_decimals : ℕ) (submit : CreateOrderCmd → Except String String) : FillOutcome :=
  match fill with
  | none => .missingFill
  | some fd =>
    match fd.order_id, fd.price, fd.filled, fd.side, fd.instrument_id with
    | some oid, some price_str, some filled_str, some side, some instr_str =>
      if oid.isEmpty || price_str.isEmpty || filled_str.isEmpty ||
          side.isEmpty || instr_str.isEmpty then
        .missingFields
      else
        match pyFloatOfString price_str, pyFloatOfString filled_str,
            pyIntOfString instr_str with
        | some filled_price, some filled_quantity, some instrument_id =>
          let is_buy := pyLower side == "buy"
          let new_order_is_buy := !is_buy
          let new_order_price := calculate_opposite_price filled_price new_order_is_buy
            (grid_interval : ℚ) price_decimals
          let cmd : CreateOrderCmd :=
            { instrument_id := instrument_id, is_buy := new_order_is_buy,
              limit_price := new_order_price, quantity := filled_quantity,
              post_only := true }
          .submitted cmd (submit cmd)
        | _, _, _ => .conversionError
    | _, _, _, _, _ => .missingFields

/-- The create_order arguments that handle_fills_message passes for a fill
whose price parsed to p, quantity to q, instrument to iid and whose side
string is ss: the opposite side, the grid-stepped price, post_only true. -/
def replacementCmd (ss : String) (p q : ℚ) (iid : ℤ) (gi : ℤ) (pd : ℕ) : CreateOrderCmd :=
  { instrument_id := iid, is_buy := !(pyLower ss == "buy"),
    limit_price := calculate_opposite_price p (!(pyLower ss == "buy")) (gi : ℚ) pd,
    quantity := q, post_only := true }

/-- The EIP-712 signing domain of the client configuration: name, version
and chain id. -/
structure SigningDomain where
  name : String
  version : String
  chainId : String
  deriving DecidableEq

/-- The Order struct whose fields sign_order populates before hashing. -/
structure OrderStruct where
  maker : String
  isBuy : Bool
  limitPrice : ℤ
  amount : ℤ
  salt : ℤ
  instrument : ℤ
  timestamp : ℤ
  deriving DecidableEq

/-- The fixed-point conversion inside sign_order (and the ws/rest payload
builders): int(round(value * decimals, is_buy)).  Note that the Python
bool is_buy is the ndigits argument of round, so buys round to one
decimal place before int() truncates, while sells round to an integer. -/
def fixedPointConvert (value scale : ℚ) (is_buy : Bool) : ℤ :=
  pyIntOfRat (pyRound (qMul value scale) (if is_buy then 1 else 0))

/-- The struct constructed by sign_order from its arguments. -/
def signableOrderStruct (wallet_address : String) (instrument_id : ℤ) (is_buy : Bool)
    (limit_price quantity : ℚ) (timestamp salt : ℤ)
    (price_decimals amount_decimals : ℚ) : OrderStruct :=
  { maker := wallet_address, isBuy := is_buy,
    limitPrice := fixedPointConvert limit_price price_decimals is_buy,
    amount := fixedPointConvert quantity amount_decimals is_buy,
    salt := salt, instrument := instrument_id, timestamp := timestamp }

/-- Lower-case hexadecimal digit of a value below 16. -/
def hexDigit (n : ℕ) : Char :=
  if n < 10 then Char.ofNat (48 + n) else Char.ofNat (87 + n)

/-- Hex rendering of a byte list, the .hex() of Python bytes. -/
def bytesToHex (l : List ℕ) : String :=
  String.mk ((l.map fun b => [hexDigit (b / 16 % 16), hexDigit (b % 16)]).flatten)

/-- AevoClient.sign_order.  The external cryptographic library calls are
parameters: encodeStructFn for the eip712_structs signable_bytes of the
struct under the domain, keccakFn for the keccak hash, signHashFn for
Account._sign_hash (each a pure deterministic function, as the libraries
are).  The random salt drawn by the source is an explicit argument, and
the result triple is (salt, signature hex, order id), where the order id
is 0x followed by the hex of the struct hash; the whole operation is a
pure function that performs no network interaction. -/
def sign_order (keccakFn : List ℕ → List ℕ)
    (signHashFn : List ℕ → String → String)
    (encodeStructFn : SigningDomain → OrderStruct → List ℕ)
    (wallet_address signing_key : String) (signing_domain : SigningDomain)
    (instrument_id : ℤ) (is_buy : Bool) (limit_price quantity : ℚ)
    (timestamp salt : ℤ) (price_decimals amount_decimals : ℚ) :
    ℤ × String × String :=
  let order_struct := signableOrderStruct wallet_address instrument_id is_buy
    limit_price quantity timestamp salt price_decimals amount_decimals
  let signable_bytes := keccakFn (encodeStructFn signing_domain order_struct)
  (salt, signHashFn signable_bytes signing_key, "0x" ++ bytesToHex signable_bytes)

/-- The fixed-point conversion as the specification words it: round the
scaled value half away from zero, independently of the order side.  Kept
only to be compared against the source's fixedPointConvert. -/
def specFixedPoint (value scale : ℚ) : ℤ :=
  let x := qMul value scale
  if 0 ≤ x.num then ratFloor (qAdd x (mkRat 1 2))
  else -(ratFloor (qAdd (mkRat (-x.num) x.den) (mkRat 1 2)))

/-- The connection attribute of the client: None, a live websocket
handle, or a handle that has been closed but not cleared. -/
inductive ConnAttr where
  | noConn
  | live (id : ℕ)
  | closedConn (id : ℕ)
  deriving DecidableEq

/-- Whether the connection attribute holds a live connection. -/
def isLiveConn : ConnAttr → Bool
  | .live _ => true
  | _ => false

/-- A subscription frame as built by the subscribe helpers:
op subscribe with a single-channel data list. -/
structure SubscribeFrame where
  op : String
  data : List String
  deriving DecidableEq

/-- The frame json.dumps-ed for one channel. -/
def mkSubscribeFrame (channel : String) : SubscribeFrame :=
  { op := "subscribe", data := [channel] }

/-- One observable action of the connection and dispatch layer. -/
inductive NetAction where
  | logMsg (s : String)
  | closeConn
  | sleep (secs : ℕ)
  | connectAttempt
  | authSend
  | sendSub (f : SubscribeFrame)
  | recvWait
  | saveFile (name : String)
  | submitOrder (c : CreateOrderCmd)
  | reconnectCall
  deriving DecidableEq

/-- The subscribe frames occurring in a trace, in order. -/
def subFrames (trace : List NetAction) : List SubscribeFrame :=
  trace.filterMap fun a =>
    match a with
    | .sendSub f => some f
    | _ => none

/-- Outcome of one run of the try block of open_connection: the connect
and the subsequent authentication both succeed; websockets.connect
itself raises; or connect returns a new handle and authenticate() then
raises (nowClosed records whether the failure that interrupted the auth
send also closed the new socket, as a ConnectionClosed does). -/
inductive ConnectOutcome where
  | success (id : ℕ)
  | connectFailure (err : String)
  | authFailure (id : ℕ) (nowClosed : Bool) (err : String)
  deriving DecidableEq

/-- Result of AevoClient.open_connection: the new connection attribute,
the trace of actions, and whether an exception escaped to the caller. -/
structure OpenResult where
  conn : ConnAttr
  trace : List NetAction
  raised : Bool
  deriving DecidableEq

/-- AevoClient.open_connection.  Closes a pre-existing handle, attempts
websockets.connect, authenticates when credentials are present.  The
enclosing try/except catches every exception, logs it and sleeps 10
seconds; nothing after the sleep retries the open.  The connection
attribute is reassigned only by a successful connect: when connect
itself raises it retains the previous (now closed) handle or None, and
when authenticate() raises after a successful connect it holds the new
handle (live or closed depending on what interrupted the auth send);
the authFailure outcome is reachable in the source only when
credentials are configured. -/
def open_connection (conn : ConnAttr) (hasAuth : Bool) (outcome : ConnectOutcome) :
    OpenResult :=
  let closeActs : List NetAction :=
    match conn with
    | .noConn => []
    | _ => [.closeConn]
  let connAfterClose : ConnAttr :=
    match conn with
    | .noConn => .noConn
    | .live i => .closedConn i
    | .closedConn i => .closedConn i
  match outcome with
  | .success id =>
      { conn := .live id,
        trace := [.logMsg "opening"] ++ closeActs ++ [.connectAttempt] ++
          (if hasAuth then [.authSend, .sleep 1] else []) ++ [.logMsg "established"],
        raised := false }
  | .connectFailure e =>
      { conn := connAfterClose,
        trace := [.logMsg "opening"] ++ closeActs ++ [.connectAttempt, .logMsg e, .sleep 10],
        raised := false }
  | .authFailure id nowClosed e =>
      { conn := if nowClosed then .closedConn id else .live id,
        trace := [.logMsg "opening"] ++ closeActs ++
          [.connectAttempt, .authSend, .logMsg e, .sleep 10],
        raised := false }

/-- AevoClient.close_connection: closes a live handle and clears the
attribute (in the finally block); on a closed or absent handle it only
logs. -/
def close_connection (conn : ConnAttr) : ConnAttr × List NetAction :=
  match conn with
  | .live _ => (.noConn, [.logMsg "closing connection", .closeConn])
  | c => (c, [.logMsg "no active connection to close"])

/-- Outcome of one connection.send call inside AevoClient.send. -/
inductive SendAttemptOutcome where
  | ok
  | closedError
  | otherError
  deriving DecidableEq

/-- Result of AevoClient.send: the payloads handed to connection.send in
order, how many reconnects were triggered, and whether an exception
escaped to the caller. -/
structure SendResult where
  attempts : List String
  reconnects : ℕ
  raised : Bool
  deriving DecidableEq

/-- AevoClient.send.  With a connection present the payload is sent; a
ConnectionClosedError triggers one reconnect and one unguarded
retransmission of the same payload (whose own failure, the second
parameter, propagates); any other error triggers a reconnect and drops
the payload; with no connection the method logs an error and reconnects
without ever attempting delivery. -/
def send (connPresent : Bool) (data : String)
    (first second : SendAttemptOutcome) : SendResult :=
  if connPresent then
    match first with
    | .ok => { attempts := [data], reconnects := 0, raised := false }
    | .closedError =>
        match second with
        | .ok => { attempts := [data, data], reconnects := 1, raised := false }
        | _ => { attempts := [data, data], reconnects := 1, raised := true }
    | .otherError => { attempts := [data], reconnects := 1, raised := false }
  else { attempts := [], reconnects := 1, raised := false }

/-- The client state the connection and subscription layer manipulates:
the connection attribute, the subscribed_channels registry and whether
credentials for authentication are configured. -/
structure ClientConnState where
  connection : ConnAttr
  subscribed_channels : List String
  hasAuth : Bool
  deriving DecidableEq

/-- Outcome of the confirmation wait inside subscribe_ticker: a success
acknowledgement, a failure message, or an asyncio timeout. -/
inductive ConfirmOutcome where
  | success
  | failureMsg
  | timeout
  deriving DecidableEq

/-- AevoClient.subscribe_ticker: sends the subscribe frame, appends the
channel to subscribed_channels, then waits up to 5 seconds for a
confirmation; every confirmation outcome is only logged, and none
removes the registry entry. -/
def subscribe_ticker (st : ClientConnState) (asset : String) (confirm : ConfirmOutcome) :
    ClientConnState × List NetAction :=
  let channel_name := "ticker:" ++ asset
  ({ st with subscribed_channels := st.subscribed_channels ++ [channel_name] },
   [.sendSub (mkSubscribeFrame channel_name), .recvWait] ++
   (match confirm with
    | .success => [.logMsg "ticker subscription confirmed"]
    | .failureMsg => [.logMsg "ticker subscription failed"]
    | .timeout => [.logMsg "timeout waiting for subscription confirmation"]))

/-- AevoClient.subscribe_orders: sends the subscribe frame and appends
the channel, with no confirmation wait. -/
def subscribe_orders (st : ClientConnState) : ClientConnState × List NetAction :=
  ({ st with subscribed_channels := st.subscribed_channels ++ ["orders"] },
   [.sendSub (mkSubscribeFrame "orders"), .logMsg "orders subscription requested"])

/-- AevoClient.subscribe_fills: sends the subscribe frame and appends
the channel, with no confirmation wait. -/
def subscribe_fills (st : ClientConnState) : ClientConnState × List NetAction :=
  ({ st with subscribed_channels := st.subscribed_channels ++ ["fills"] },
   [.sendSub (mkSubscribeFrame "fills"), .logMsg "fills subscription requested"])

/-- AevoClient.resubscribe_channels: one subscribe frame per registry
entry, in registration order, each followed by a log line. -/
def resubscribeActions (channels : List String) : List NetAction :=
  (channels.map fun ch =>
    [NetAction.sendSub (mkSubscribeFrame ch), .logMsg ("resubscribed " ++ ch)]).flatten

/-- AevoClient.reconnect: close any existing handle, sleep 5 seconds,
reopen, and resubscribe every registered channel.  When the open fails
(open_connection itself swallows the failure) and no usable connection
remains, the subsequent resubscription send raises on the dead
connection and reconnect's own except block logs it, so no subscribe
frame is replayed; with an empty registry the loop body never runs and
nothing raises; after an authentication failure that left the new
handle open, the resubscription sends still go through. -/
def reconnect (st : ClientConnState) (outcome : ConnectOutcome) :
    ClientConnState × List NetAction :=
  let closeRes := close_connection st.connection
  let openRes := open_connection closeRes.1 st.hasAuth outcome
  match outcome with
  | .success _ =>
      ({ st with connection := openRes.conn },
       [.logMsg "reconnecting"] ++ closeRes.2 ++ [.sleep 5] ++ openRes.trace ++
         resubscribeActions st.subscribed_channels)
  | .connectFailure _ =>
      ({ st with connection := openRes.conn },
       [.logMsg "reconnecting"] ++ closeRes.2 ++ [.sleep 5] ++ openRes.trace ++
         (if st.subscribed_channels.isEmpty then [] else [.logMsg "reconnect failed"]))
  | .authFailure _ nowClosed _ =>
      ({ st with connection := openRes.conn },
       [.logMsg "reconnecting"] ++ closeRes.2 ++ [.sleep 5] ++ openRes.trace ++
         (if nowClosed then
            (if st.subscribed_channels.isEmpty then [] else [.logMsg "reconnect failed"])
          else resubscribeActions st.subscribed_channels))

/-- One subscribe call of the session set-up: ticker (with its
confirmation outcome), orders, or fills. -/
inductive SubscribeCall where
  | ticker (asset : String) (confirm : ConfirmOutcome)
  | orders
  | fills
  deriving DecidableEq

/-- The channel a subscribe call registers. -/
def channelOf : SubscribeCall → String
  | .ticker a _ => "ticker:" ++ a
  | .orders => "orders"
  | .fills => "fills"

/-- State transition of one subscribe call. -/
def applySubscribe (st : ClientConnState) : SubscribeCall → ClientConnState
  | .ticker a c => (subscribe_ticker st a c).1
  | .orders => (subscribe_orders st).1
  | .fills => (subscribe_fills st).1

/-- The mutable state the message dispatch loop's handlers touch: the
orders list, the tickers dict (insertion-ordered, as Python dicts are)
and the most-recent-100 ticker deque. -/
structure DispatchState where
  orders : List String
  tickers : List (String × String)
  latest_tickers : List String
  deriving DecidableEq

/-- A decoded inbound frame: the channel field and the data payloads the
handlers read from it (raw order entries, the fill object, the ticker
data). -/
structure InMessage where
  channel : Option String := none
  data_orders : List String := []
  data_fill : Option FillData := none
  data_ticker : String := ""
  deriving DecidableEq

/-- One iteration's receive outcome in message_handler: a timeout, a
closed connection, or a frame — which json.loads either decodes (some)
or rejects (none). -/
inductive RecvResult where
  | timeout
  | closed
  | frame (decoded : Option InMessage)
  deriving DecidableEq

/-- Python dict insertion: replace in place when the key exists,
otherwise append. -/
def dictInsert : List (String × String) → String → String → List (String × String)
  | [], k, v => [(k, v)]
  | (k', v') :: rest, k, v =>
      if k' = k then (k, v) :: rest else (k', v') :: dictInsert rest k v

/-- Append to a deque with maxlen 100: the oldest entry is dropped once
the length exceeds 100. -/
def dequeAppend100 (l : List String) (x : String) : List String :=
  let l' := l ++ [x]
  l'.drop (l'.length - 100)

/-- Whether a character list starts with the given prefix list. -/
def listStartsWith : List Char → List Char → Bool
  | [], _ => true
  | _ :: _, [] => false
  | p :: ps, c :: cs => p = c && listStartsWith ps cs

/-- The last colon-separated component of a string: channel.split(':')[-1]. -/
def lastColonComponent (s : String) : String :=
  String.mk ((splitChar ':' s.data []).getLastD [])

/-- AevoClient.handle_ticker_message: store the ticker under the asset
name extracted from the channel, append it to the bounded deque, and
save the snapshot file. -/
def handle_ticker_message (st : DispatchState) (channel data_ticker : String) :
    DispatchState × List NetAction :=
  let asset := lastColonComponent channel
  ({ st with
      tickers := dictInsert st.tickers asset data_ticker,
      latest_tickers := dequeAppend100 st.latest_tickers data_ticker },
   [.saveFile ("data/" ++ asset ++ "_tickers.pkl")])

/-- AevoClient.handle_order_message: log and append every order entry,
then save the orders file. -/
def handle_order_message (st : DispatchState) (data_orders : List String) :
    DispatchState × List NetAction :=
  ({ st with orders := st.orders ++ data_orders },
   (data_orders.map fun o => NetAction.logMsg ("order update " ++ o)) ++
     [.saveFile "data/orders.pkl"])

/-- The actions a fill-handler outcome produces: one create_order
submission when a command was built, and a log line either way. -/
def fillActions : FillOutcome → List NetAction
  | .missingFill => [.logMsg "fills message missing fill data"]
  | .missingFields => [.logMsg "fills message missing required data"]
  | .conversionError => [.logMsg "fill data conversion error"]
  | .submitted cmd r =>
      [.submitOrder cmd] ++
      (match r with
       | .ok oid => [.logMsg ("replacement order created " ++ oid)]
       | .error e => [.logMsg ("error creating replacement order " ++ e)])

/-- One iteration of AevoClient.message_handler: receive with a 20 s
timeout, decode, and route by channel.  A timeout or an undecodable
frame is logged and the loop continues with the state untouched; a
closed connection triggers reconnect; channels other than ticker:*,
orders and fills are ignored. -/
def message_handler_step (st : DispatchState) (grid_interval : ℤ) (price_decimals : ℕ)
    (submit : CreateOrderCmd → Except String String) (r : RecvResult) :
    DispatchState × List NetAction :=
  match r with
  | .timeout => (st, [.logMsg "no new fills, waiting"])
  | .closed => (st, [.logMsg "connection closed, reconnecting", .reconnectCall])
  | .frame none => (st, [.logMsg "error decoding json response"])
  | .frame (some m) =>
      match m.channel with
      | some ch =>
          if listStartsWith "ticker:".data ch.data then
            handle_ticker_message st ch m.data_ticker
          else if ch = "orders" then
            handle_order_message st m.data_orders
          else if ch = "fills" then
            (st, fillActions (handle_fills_message m.data_fill grid_interval
              price_decimals submit))
          else (st, [])
      | none => (st, [])

theorem qAdd_eq (a b : ℚ) : qAdd a b = a + b := by
  have ha : ((a.den : ℤ)) ≠ 0 := Int.natCast_ne_zero.mpr a.den_nz
  have hb : ((b.den : ℤ)) ≠ 0 := Int.natCast_ne_zero.mpr b.den_nz
  rw [qAdd, Rat.mkRat_eq_divInt]
  conv_rhs => rw [← Rat.num_divInt_den a, ← Rat.num_divInt_den b]
  rw [Rat.divInt_add_divInt _ _ ha hb]
  push_cast
  ring_nf

theorem qSub_eq (a b : ℚ) : qSub a b = a - b := by
  have ha : ((a.den : ℤ)) ≠ 0 := Int.natCast_ne_zero.mpr a.den_nz
  have hb : ((b.den : ℤ)) ≠ 0 := Int.natCast_ne_zero.mpr b.den_nz
  rw [qSub, Rat.mkRat_eq_divInt]
  conv_rhs => rw [← Rat.num_divInt_den a, ← Rat.num_divInt_den b]
  rw [Rat.divInt_sub_divInt _ _ ha hb]
  push_cast
  ring_nf

theorem qMul_eq (a b : ℚ) : qMul a b = a * b := by
  rw [qMul, Rat.mkRat_eq_divInt]
  conv_rhs => rw [← Rat.num_divInt_den a, ← Rat.num_divInt_den b]
  rw [Rat.divInt_mul_divInt']
  push_cast
  ring_nf

theorem qDivPow10_eq (x : ℚ) (n : ℕ) : qDivPow10 x n = x / 10 ^ n := by
  have hten : ((10 : ℚ) ^ n) = Rat.divInt ((10:ℤ) ^ n) 1 := by
    rw [Rat.divInt_one]; push_cast; ring
  rw [qDivPow10, Rat.mkRat_eq_divInt]
  conv_rhs => rw [← Rat.num_divInt_den x, hten]
  rw [Rat.divInt_div_divInt]
  push_cast
  ring_nf

theorem qMulPow10_eq (x : ℚ) (n : ℕ) : qMulPow10 x n = x * 10 ^ n := by
  have hten : ((10 : ℚ) ^ n) = Rat.divInt ((10:ℤ) ^ n) 1 := by
    rw [Rat.divInt_one]; push_cast; ring
  rw [qMulPow10, Rat.mkRat_eq_divInt]
  conv_rhs => rw [← Rat.num_divInt_den x, hten]
  rw [Rat.divInt_mul_divInt']
  ring_nf

theorem ratFloor_eq (x : ℚ) : ratFloor x = ⌊x⌋ := by
  rw [ratFloor, Rat.floor_def]

theorem pyRound_eq (x : ℚ) (n : ℕ) :
    pyRound x n = (pyRoundHalfEven (x * 10 ^ n) : ℚ) / 10 ^ n := by
  rw [pyRound, qMulPow10_eq, Rat.mkRat_eq_div]
  push_cast
  ring_nf

theorem pyIntOfRat_intCast (k : ℤ) : pyIntOfRat (k : ℚ) = k := by
  rw [pyIntOfRat, Rat.intCast_num, Rat.intCast_den, Nat.cast_one, Int.tdiv_one]

theorem calculate_opposite_price_eq (p : ℚ) (b : Bool) (gi : ℚ) (pd : ℕ) :
    calculate_opposite_price p b gi pd = pyRound (if b then p - gi else p + gi) pd := by
  cases b <;> simp [calculate_opposite_price, qSub_eq, qAdd_eq]

example : calculate_opposite_price 3200 false 5 2 = 3205 := by decide
example : calculate_opposite_price 3200 true 5 2 = 3195 := by decide
example : pyFloatOfString "3200.00" = some 3200 := by decide
example : pyFloatOfString "-0.375" = some (mkRat (-3) 8) := by decide
example : pyFloatOfString "1.2.3" = none := by decide
example : pyFloatOfString "abc" = none := by decide
example : pyIntOfString "2054" = some 2054 := by decide
example : pyLower "BuY" = "buy" := by decide
example : pyRoundHalfEven (mkRat 5 2) = 2 := by decide
example : pyRoundHalfEven (mkRat 7 2) = 4 := by decide
example : pyRoundHalfEven (mkRat (-1) 2) = 0 := by decide
example : pyRoundHalfEven (mkRat (-3) 2) = -2 := by decide
example : pyIntOfRat (mkRat 7 10) = 0 := by decide
example : pyIntOfRat (mkRat (-7) 10) = 0 := by decide

example :
    handle_fills_message
      (some { order_id := some "1", price := some "3200.00", filled := some "0.01",
              side := some "buy", instrument_id := some "2054" }) 5 2
      (fun _ => Except.ok "new") =
    .submitted
      { instrument_id := 2054, is_buy := false, limit_price := 3205,
        quantity := mkRat 1 100, post_only := true }
      (Except.ok "new") := by decide

example :
    handle_fills_message
      (some { order_id := some "1", price := some "3200.00", filled := some "0.01",
              side := some "sell", instrument_id := some "2054" }) 5 2
      (fun _ => Except.ok "new") =
    .submitted
      { instrument_id := 2054, is_buy := true, limit_price := 3195,
        quantity := mkRat 1 100, post_only := true }
      (Except.ok "new") := by decide

example :
    handle_fills_message
      (some { order_id := some "1", price := some "oops", filled := some "0.01",
              side := some "buy", instrument_id := some "2054" }) 5 2
      (fun _ => Except.ok "new") = .conversionError := by decide

example :
    handle_fills_message
      (some { order_id := some "1", price := some "3200.00", filled := some "0.01",
              side := some "", instrument_id := some "2054" }) 5 2
      (fun _ => Except.ok "new") = .missingFields := by decide

theorem pyFloatOfString_ne_empty {s : String} {p : ℚ}
    (h : pyFloatOfString s = some p) : s.isEmpty = false := by
  cases hs : s.isEmpty
  · rfl
  · rw [(String.isEmpty_iff s).mp hs] at h
    exact Option.noConfusion h

theorem pyIntOfString_ne_empty {s : String} {k : ℤ}
    (h : pyIntOfString s = some k) : s.isEmpty = false := by
  cases hs : s.isEmpty
  · rfl
  · rw [(String.isEmpty_iff s).mp hs] at h
    exact Option.noConfusion h

theorem handle_fills_message_valid
    (oid ps qs ss istr : String) (gi : ℤ) (pd : ℕ) (p q : ℚ) (iid : ℤ)
    (hoid : oid.isEmpty = false) (hss : ss.isEmpty = false)
    (hp : pyFloatOfString ps = some p) (hq : pyFloatOfString qs = some q)
    (hi : pyIntOfString istr = some iid)
    (submit : CreateOrderCmd → Except String String) :
    handle_fills_message
      (some { order_id := some oid, price := some ps, filled := some qs,
              side := some ss, instrument_id := some istr }) gi pd submit =
      .submitted (replacementCmd ss p q iid gi pd)
        (submit (replacementCmd ss p q iid gi pd)) := by
  have hps := pyFloatOfString_ne_empty hp
  have hqs := pyFloatOfString_ne_empty hq
  have histr := pyIntOfString_ne_empty hi
  simp [handle_fills_message, hoid, hps, hqs, hss, histr, hp, hq, hi, replacementCmd]

/-- C1 counterexample: for the fill price 3200.00 on a buy fill with
interval 5 and 2 price decimals, the code submits a replacement at
3205.00, not at the claimed fillPrice minus interval = 3195.00 (the
handler passes the replacement order's side, not the fill's side, into
calculate_opposite_price, flipping the sign of the step). -/
theorem fill_buy_price_minus_interval_counterexample :
    handle_fills_message
      (some { order_id := some "1", price := some "3200.00", filled := some "0.01",
              side := some "buy", instrument_id := some "2054" }) 5 2
      (fun _ => Except.ok "new") =
    .submitted
      { instrument_id := 2054, is_buy := false, limit_price := 3205,
        quantity := mkRat 1 100, post_only := true }
      (Except.ok "new")
    ∧ (3205 : ℚ) ≠ 3195 := by
  constructor
  · decide
  · decide

/-- C1 (amended): for every valid fill event, the replacement price is
fillPrice plus gridInterval when the fill was a buy and fillPrice minus
gridInterval when it was a sell, rounded to priceDecimals; in particular
fillPrice 3200.00, interval 5, decimals 2 gives 3205.00 for a buy fill
and 3195.00 for a sell fill. -/
theorem fill_replacement_price_rule
    (oid ps qs ss istr : String) (gi : ℤ) (pd : ℕ) (p q : ℚ) (iid : ℤ)
    (hoid : oid.isEmpty = false) (hss : ss.isEmpty = false)
    (hp : pyFloatOfString ps = some p) (hq : pyFloatOfString qs = some q)
    (hi : pyIntOfString istr = some iid) :
    ∃ cmd : CreateOrderCmd,
      (∀ submit, handle_fills_message
        (some { order_id := some oid, price := some ps, filled := some qs,
                side := some ss, instrument_id := some istr }) gi pd submit =
        .submitted cmd (submit cmd)) ∧
      cmd.limit_price =
        (if pyLower ss == "buy" then pyRound (p + (gi : ℚ)) pd
         else pyRound (p - (gi : ℚ)) pd) := by
  refine ⟨replacementCmd ss p q iid gi pd,
    fun submit => handle_fills_message_valid oid ps qs ss istr gi pd p q iid
      hoid hss hp hq hi submit, ?_⟩
  rw [replacementCmd]
  cases hbuy : (pyLower ss == "buy") <;>
    simp [hbuy, calculate_opposite_price_eq]

/-- Witness for fill_replacement_price_rule at the spec's own example
inputs (buy fill at 3200.00, interval 5, decimals 2). -/
theorem fill_replacement_price_rule_witness :
    ∃ cmd : CreateOrderCmd,
      (∀ submit, handle_fills_message
        (some { order_id := some "1", price := some "3200.00", filled := some "0.01",
                side := some "buy", instrument_id := some "2054" }) 5 2 submit =
        .submitted cmd (submit cmd)) ∧
      cmd.limit_price =
        (if pyLower "buy" == "buy" then pyRound ((3200 : ℚ) + ((5 : ℤ) : ℚ)) 2
         else pyRound ((3200 : ℚ) - ((5 : ℤ) : ℚ)) 2) :=
  fill_replacement_price_rule "1" "3200.00" "0.01" "buy" "2054" 5 2 3200 (mkRat 1 100) 2054
    (by decide) (by decide) (by decide) (by decide) (by decide)

/-- C2: a fill message with all required fields present and convertible
yields exactly one create_order submission, for the same instrument and
the filled quantity, post_only true and the opposite side; this holds for
every submit outcome, so an exception inside the submission is absorbed
(logged) rather than propagated out of the handler. -/
theorem fill_single_postonly_opposite_submission
    (oid ps qs ss istr : String) (gi : ℤ) (pd : ℕ) (p q : ℚ) (iid : ℤ)
    (hoid : oid.isEmpty = false) (hss : ss.isEmpty = false)
    (hp : pyFloatOfString ps = some p) (hq : pyFloatOfString qs = some q)
    (hi : pyIntOfString istr = some iid) :
    ∃ cmd : CreateOrderCmd,
      (∀ submit, handle_fills_message
        (some { order_id := some oid, price := some ps, filled := some qs,
                side := some ss, instrument_id := some istr }) gi pd submit =
        .submitted cmd (submit cmd)) ∧
      cmd.instrument_id = iid ∧ cmd.quantity = q ∧ cmd.post_only = true ∧
      cmd.is_buy = !(pyLower ss == "buy") :=
  ⟨replacementCmd ss p q iid gi pd,
    fun submit => handle_fills_message_valid oid ps qs ss istr gi pd p q iid
      hoid hss hp hq hi submit, rfl, rfl, rfl, rfl⟩

/-- Witness for fill_single_postonly_opposite_submission: a concrete sell
fill; the universally quantified submit covers the failing-submission case
as well. -/
theorem fill_single_postonly_opposite_submission_witness :
    ∃ cmd : CreateOrderCmd,
      (∀ submit, handle_fills_message
        (some { order_id := some "1", price := some "3200.00", filled := some "0.01",
                side := some "sell", instrument_id := some "2054" }) 5 2 submit =
        .submitted cmd (submit cmd)) ∧
      cmd.instrument_id = 2054 ∧ cmd.quantity = mkRat 1 100 ∧ cmd.post_only = true ∧
      cmd.is_buy = !(pyLower "sell" == "buy") :=
  fill_single_postonly_opposite_submission "1" "3200.00" "0.01" "sell" "2054" 5 2
    3200 (mkRat 1 100) 2054 (by decide) (by decide) (by decide) (by decide) (by decide)

/-- C9: a fill whose side is any non-empty string other than a
case-insensitive spelling of buy is not rejected: the handler treats it as
a sell and issues a buy replacement; no validation restricts side to buy
or sell. -/
theorem fill_side_not_validated
    (oid ps qs ss istr : String) (gi : ℤ) (pd : ℕ) (p q : ℚ) (iid : ℤ)
    (hoid : oid.isEmpty = false) (hss : ss.isEmpty = false)
    (hnb : pyLower ss ≠ "buy")
    (hp : pyFloatOfString ps = some p) (hq : pyFloatOfString qs = some q)
    (hi : pyIntOfString istr = some iid) :
    ∃ cmd : CreateOrderCmd,
      (∀ submit, handle_fills_message
        (some { order_id := some oid, price := some ps, filled := some qs,
                side := some ss, instrument_id := some istr }) gi pd submit =
        .submitted cmd (submit cmd)) ∧
      cmd.is_buy = true := by
  refine ⟨replacementCmd ss p q iid gi pd,
    fun submit => handle_fills_message_valid oid ps qs ss istr gi pd p q iid
      hoid hss hp hq hi submit, ?_⟩
  simp [replacementCmd, hnb]

/-- Witness for fill_side_not_validated: the side string Banana is
processed as a sell and answered with a buy replacement. -/
theorem fill_side_not_validated_witness :
    ∃ cmd : CreateOrderCmd,
      (∀ submit, handle_fills_message
        (some { order_id := some "1", price := some "3200.00", filled := some "0.01",
                side := some "Banana", instrument_id := some "2054" }) 5 2 submit =
        .submitted cmd (submit cmd)) ∧
      cmd.is_buy = true :=
  fill_side_not_validated "1" "3200.00" "0.01" "Banana" "2054" 5 2
    3200 (mkRat 1 100) 2054 (by decide) (by decide) (by decide) (by decide) (by decide)
    (by decide)

example : specFixedPoint (mkRat 1 2) 1 = 1 := by decide
example : specFixedPoint (mkRat (-1) 2) 1 = -1 := by decide
example : bytesToHex [0, 26, 255] = "001aff" := by decide

/-- C4 counterexample: at value 3/2^22 (exactly representable as a float)
and scale 10^6, a buy converts to 0 where the claimed side-independent
round-half-away rule gives 1, and a sell converts to 1: the conversion is
neither half-away-from-zero nor independent of the side; at value
5/2000000 a sell shows the half-to-even tie behaviour (2, not the claimed
3). -/
theorem sign_order_fixed_point_counterexample :
    fixedPointConvert (mkRat 3 4194304) 1000000 true = 0 ∧
    specFixedPoint (mkRat 3 4194304) 1000000 = 1 ∧
    fixedPointConvert (mkRat 3 4194304) 1000000 false = 1 ∧
    fixedPointConvert (mkRat 5 2000000) 1000000 false = 2 ∧
    specFixedPoint (mkRat 5 2000000) 1000000 = 3 := by decide

/-- C4 (amended): when signing an order, limitPrice and quantity are each
converted as int(round(value * scale, is_buy)): for sells (is_buy false)
this is round-half-to-even to an integer; for buys (is_buy true) it is
round-half-to-even at one decimal place followed by truncation toward
zero — so the rounding policy is banker's rounding, not half-away-from-
zero, and the conversion depends on the order's side. -/
theorem sign_order_fixed_point_rule (v s : ℚ) :
    fixedPointConvert v s false = pyRoundHalfEven (v * s) ∧
    fixedPointConvert v s true = pyIntOfRat ((pyRoundHalfEven (v * s * 10) : ℚ) / 10) := by
  constructor
  · rw [fixedPointConvert, if_neg (by simp), pyRound, qMulPow10_eq, pow_zero, mul_one,
      pow_zero, Rat.mkRat_one, qMul_eq, pyIntOfRat_intCast]
  · rw [fixedPointConvert, if_pos rfl, pyRound, qMulPow10_eq, pow_one, qMul_eq,
      pow_one, Rat.mkRat_eq_div]
    push_cast
    ring_nf

/-- C8: order signing is deterministic in all its inputs: two runs of
sign_order on equal (instrumentId, isBuy, limitPrice, quantity,
timestamp, salt) under the same key, wallet and domain produce the same
salt, signature and orderId; and the orderId is exactly 0x followed by
the hex of the hash of the signable struct, computed by the pure signing
function with no network interaction. -/
theorem sign_order_deterministic (keccakFn : List ℕ → List ℕ)
    (signHashFn : List ℕ → String → String)
    (encodeStructFn : SigningDomain → OrderStruct → List ℕ)
    (wallet_address signing_key : String) (signing_domain : SigningDomain)
    (iid iid' : ℤ) (b b' : Bool) (lp lp' q q' : ℚ) (ts ts' salt salt' : ℤ)
    (pdec adec : ℚ)
    (h : (iid, b, lp, q, ts, salt) = (iid', b', lp', q', ts', salt')) :
    sign_order keccakFn signHashFn encodeStructFn wallet_address signing_key
      signing_domain iid b lp q ts salt pdec adec =
    sign_order keccakFn signHashFn encodeStructFn wallet_address signing_key
      signing_domain iid' b' lp' q' ts' salt' pdec adec ∧
    (sign_order keccakFn signHashFn encodeStructFn wallet_address signing_key
      signing_domain iid b lp q ts salt pdec adec).2.2 =
      "0x" ++ bytesToHex (keccakFn (encodeStructFn signing_domain
        (signableOrderStruct wallet_address iid b lp q ts salt pdec adec))) := by
  simp only [Prod.mk.injEq] at h
  obtain ⟨rfl, rfl, rfl, rfl, rfl, rfl⟩ := h
  exact ⟨rfl, rfl⟩

/-- Witness for sign_order_deterministic at concrete inputs and concrete
instantiations of the cryptographic functions. -/
theorem sign_order_deterministic_witness :
    sign_order (fun l => l) (fun _ _ => "sig") (fun _ st => [st.salt.toNat % 256])
      "0xw" "0xk" { name := "Aevo Mainnet", version := "1", chainId := "1" }
      1 true 3200 1 7 42 1000000 1000000 =
    sign_order (fun l => l) (fun _ _ => "sig") (fun _ st => [st.salt.toNat % 256])
      "0xw" "0xk" { name := "Aevo Mainnet", version := "1", chainId := "1" }
      1 true 3200 1 7 42 1000000 1000000 ∧
    (sign_order (fun l => l) (fun _ _ => "sig") (fun _ st => [st.salt.toNat % 256])
      "0xw" "0xk" { name := "Aevo Mainnet", version := "1", chainId := "1" }
      1 true 3200 1 7 42 1000000 1000000).2.2 =
      "0x" ++ bytesToHex ((fun l => l) ((fun (_ : SigningDomain) (st : OrderStruct) =>
        [st.salt.toNat % 256]) { name := "Aevo Mainnet", version := "1", chainId := "1" }
        (signableOrderStruct "0xw" 1 true 3200 1 7 42 1000000 1000000))) :=
  sign_order_deterministic (fun l => l) (fun _ _ => "sig")
    (fun _ st => [st.salt.toNat % 256]) "0xw" "0xk"
    { name := "Aevo Mainnet", version := "1", chainId := "1" }
    1 1 true true 3200 3200 1 1 7 7 42 42 1000000 1000000 rfl

/-- C3 counterexample: with no live connection, send reconnects but hands
the payload to the transport zero times — it never attempts delivery, so
the claimed reconnect-then-attempt-delivery behaviour is false. -/
theorem send_no_connection_counterexample :
    (send false "payload" .ok .ok).reconnects = 1 ∧
    (send false "payload" .ok .ok).attempts = [] ∧
    ¬ "payload" ∈ (send false "payload" .ok .ok).attempts := by decide

/-- C3 (amended): with no live connection, send logs an error, reconnects
and drops the payload without attempting delivery; a successful first
transmission involves no reconnect; a closed-connection error triggers
exactly one reconnect and exactly one retransmission of the same payload
(two hand-offs in total, never more, whatever the second attempt does);
any other error triggers one reconnect and drops the payload. -/
theorem send_retry_policy (data : String) (first second : SendAttemptOutcome) :
    send false data first second =
      { attempts := [], reconnects := 1, raised := false } ∧
    send true data .ok second =
      { attempts := [data], reconnects := 0, raised := false } ∧
    (send true data .closedError second).attempts = [data, data] ∧
    (send true data .closedError second).reconnects = 1 ∧
    send true data .closedError .ok =
      { attempts := [data, data], reconnects := 1, raised := false } ∧
    send true data .otherError second =
      { attempts := [data], reconnects := 1, raised := false } ∧
    (send true data first second).attempts.length ≤ 2 := by
  cases first <;> cases second <;> simp [send]

/-- C6 counterexample: when websockets.connect raises while a previous
(live) handle number 7 exists, open_connection makes exactly one connect
attempt and its trace ends with the 10-second sleep — no retry of the
open follows the cool-down — and the connection attribute still holds
the old handle (now closed) rather than being cleared; and when
authenticate() raises after connect returned handle 9, the attribute
holds that new handle — even still live if the auth failure did not
close the socket — so the manager does not end with the attribute
cleared either way. -/
theorem open_connection_no_retry_counterexample :
    ((open_connection (.live 7) true (.connectFailure "boom")).trace.count
      .connectAttempt = 1) ∧
    ((open_connection (.live 7) true (.connectFailure "boom")).trace.getLast? =
      some (.sleep 10)) ∧
    ((open_connection (.live 7) true (.connectFailure "boom")).conn = .closedConn 7) ∧
    ((open_connection (.live 7) true (.authFailure 9 false "boom")).conn = .live 9) ∧
    ((open_connection (.live 7) true (.authFailure 9 false "boom")).trace.count
      .connectAttempt = 1) := by
  decide

/-- C6 (amended): any exception inside the open — whether
websockets.connect raised or the subsequent authenticate() did — is
caught and logged, never propagated; the coroutine then blocks for the
fixed 10-second cool-down and returns without retrying the open
(exactly one connect attempt, and nothing after the sleep).  The
connection attribute is not cleared: a connect-step failure leaves the
previous — now closed — handle (or None, so no live connection
remains), while an authentication-step failure leaves the newly
connected handle, which may even still be live. -/
theorem open_connection_failure_behaviour (conn : ConnAttr) (hasAuth nowClosed : Bool)
    (e : String) (id : ℕ) :
    (open_connection conn hasAuth (.connectFailure e)).raised = false ∧
    isLiveConn (open_connection conn hasAuth (.connectFailure e)).conn = false ∧
    (open_connection conn hasAuth (.connectFailure e)).trace.count .connectAttempt = 1 ∧
    (open_connection conn hasAuth (.connectFailure e)).trace.getLast? =
      some (.sleep 10) ∧
    (open_connection conn hasAuth (.connectFailure e)).conn =
      (match conn with
       | .noConn => .noConn
       | .live i => .closedConn i
       | .closedConn i => .closedConn i) ∧
    (open_connection conn true (.authFailure id nowClosed e)).raised = false ∧
    (open_connection conn true (.authFailure id nowClosed e)).trace.count
      .connectAttempt = 1 ∧
    (open_connection conn true (.authFailure id nowClosed e)).trace.getLast? =
      some (.sleep 10) ∧
    (open_connection conn true (.authFailure id nowClosed e)).conn =
      (if nowClosed then .closedConn id else .live id) := by
  cases conn <;>
    refine ⟨rfl, rfl, ?_, rfl, rfl, rfl, ?_, rfl, rfl⟩ <;>
    simp [open_connection, List.count_cons, List.count_nil]

theorem applySubscribe_subscribed_channels (st : ClientConnState) (c : SubscribeCall) :
    (applySubscribe st c).subscribed_channels =
      st.subscribed_channels ++ [channelOf c] := by
  cases c <;> rfl

theorem applySubscribe_connection (st : ClientConnState) (c : SubscribeCall) :
    (applySubscribe st c).connection = st.connection := by
  cases c <;> rfl

theorem applySubscribe_hasAuth (st : ClientConnState) (c : SubscribeCall) :
    (applySubscribe st c).hasAuth = st.hasAuth := by
  cases c <;> rfl

theorem foldl_applySubscribe_channels (calls : List SubscribeCall) (st : ClientConnState) :
    (calls.foldl applySubscribe st).subscribed_channels =
      st.subscribed_channels ++ calls.map channelOf := by
  induction calls generalizing st with
  | nil => simp
  | cons c cs ih =>
      simp [List.foldl_cons, ih, applySubscribe_subscribed_channels]

theorem foldl_applySubscribe_connection (calls : List SubscribeCall) (st : ClientConnState) :
    (calls.foldl applySubscribe st).connection = st.connection := by
  induction calls generalizing st with
  | nil => rfl
  | cons c cs ih => rw [List.foldl_cons, ih, applySubscribe_connection]

theorem foldl_applySubscribe_hasAuth (calls : List SubscribeCall) (st : ClientConnState) :
    (calls.foldl applySubscribe st).hasAuth = st.hasAuth := by
  induction calls generalizing st with
  | nil => rfl
  | cons c cs ih => rw [List.foldl_cons, ih, applySubscribe_hasAuth]

theorem subFrames_append (a b : List NetAction) :
    subFrames (a ++ b) = subFrames a ++ subFrames b := by
  simp [subFrames]

theorem subFrames_resubscribeActions (channels : List String) :
    subFrames (resubscribeActions channels) = channels.map mkSubscribeFrame := by
  induction channels with
  | nil => rfl
  | cons ch rest ih => simp [resubscribeActions, subFrames] at ih ⊢; exact ih

theorem subFrames_close_connection (c : ConnAttr) :
    subFrames (close_connection c).2 = [] := by
  cases c <;> rfl

theorem subFrames_open_connection (c : ConnAttr) (hasAuth : Bool) (o : ConnectOutcome) :
    subFrames (open_connection c hasAuth o).trace = [] := by
  cases o <;> cases c <;> cases hasAuth <;> rfl

/-- C5: after N subscribe calls against an initially empty registry, the
registry lists exactly the N channels in call order, and a reconnect
first closes the existing handle, sleeps the fixed 5 seconds, reopens,
and replays exactly N subscribe frames — the same channels, one frame
per registered entry, in registration order — ending with the new
connection live. -/
theorem resubscribe_completeness (calls : List SubscribeCall) (hasAuth : Bool)
    (cid newId : ℕ) :
    (calls.foldl applySubscribe
        ⟨ConnAttr.live cid, [], hasAuth⟩).subscribed_channels = calls.map channelOf ∧
    subFrames (reconnect (calls.foldl applySubscribe ⟨ConnAttr.live cid, [], hasAuth⟩)
        (.success newId)).2 = (calls.map channelOf).map mkSubscribeFrame ∧
    (subFrames (reconnect (calls.foldl applySubscribe ⟨ConnAttr.live cid, [], hasAuth⟩)
        (.success newId)).2).length = calls.length ∧
    (reconnect (calls.foldl applySubscribe ⟨ConnAttr.live cid, [], hasAuth⟩)
        (.success newId)).2.take 4 =
      [.logMsg "reconnecting", .logMsg "closing connection", .closeConn, .sleep 5] ∧
    (reconnect (calls.foldl applySubscribe ⟨ConnAttr.live cid, [], hasAuth⟩)
        (.success newId)).1.connection = .live newId := by
  have hch := foldl_applySubscribe_channels calls ⟨ConnAttr.live cid, [], hasAuth⟩
  have hconn := foldl_applySubscribe_connection calls ⟨ConnAttr.live cid, [], hasAuth⟩
  have hauth := foldl_applySubscribe_hasAuth calls ⟨ConnAttr.live cid, [], hasAuth⟩
  refine ⟨by simpa using hch, ?_, ?_, ?_, ?_⟩
  · rw [reconnect]
    simp only [hconn, hauth, hch]
    rw [subFrames_append, subFrames_append, subFrames_append,
      subFrames_resubscribeActions]
    cases hasAuth <;> simp [subFrames, close_connection, open_connection]
  · rw [reconnect]
    simp only [hconn, hauth, hch]
    rw [subFrames_append, subFrames_append, subFrames_append,
      subFrames_resubscribeActions]
    cases hasAuth <;> simp [subFrames, close_connection, open_connection]
  · rw [reconnect]
    simp only [hconn, hauth]
    cases hasAuth <;> simp [close_connection, open_connection]
  · rw [reconnect]
    simp only [hconn, hauth]
    cases hasAuth <;> simp [close_connection, open_connection]

/-- C10: every subscribe operation appends its channel to the registry
unconditionally — the registry after subscribe_ticker is the same for
every confirmation outcome (success, failure report or timeout), and the
entry therefore survives a failed or timed-out confirmation — and the
channel is replayed by any subsequent successful reconnect. -/
theorem subscribe_registers_unconditionally (st : ClientConnState) (asset : String)
    (confirm confirm' : ConfirmOutcome) (newId : ℕ) :
    (subscribe_ticker st asset confirm).1.subscribed_channels =
      st.subscribed_channels ++ ["ticker:" ++ asset] ∧
    (subscribe_ticker st asset confirm).1 = (subscribe_ticker st asset confirm').1 ∧
    (subscribe_orders st).1.subscribed_channels = st.subscribed_channels ++ ["orders"] ∧
    (subscribe_fills st).1.subscribed_channels = st.subscribed_channels ++ ["fills"] ∧
    mkSubscribeFrame ("ticker:" ++ asset) ∈
      subFrames (reconnect (subscribe_ticker st asset confirm).1 (.success newId)).2 := by
  refine ⟨rfl, rfl, rfl, rfl, ?_⟩
  rw [reconnect]
  simp only [subscribe_ticker]
  rw [subFrames_append, subFrames_append, subFrames_append, subFrames_append,
    subFrames_resubscribeActions, subFrames_close_connection,
    subFrames_open_connection]
  simp [subFrames]

theorem listStartsWith_append (l rest : List Char) :
    listStartsWith l (l ++ rest) = true := by
  induction l with
  | nil => rfl
  | cons c cs ih => simp [listStartsWith, ih]

/-- C7: one dispatch-loop iteration on an undecodable frame, or on a
receive timeout, only logs and leaves the client state unchanged (the
step is total: nothing is raised and no reconnect or submission
happens); a well-formed frame arriving after an undecodable one is
processed exactly as it would have been without it — in particular a
valid fills frame still produces its create_order submission, an orders
frame still appends its entries, and a ticker frame still stores its
data under the channel's asset. -/
theorem malformed_frame_isolation
    (st : DispatchState) (gi : ℤ) (pd : ℕ)
    (submit : CreateOrderCmd → Except String String) (m : InMessage)
    (oid ps qs ss istr a t : String) (os : List String) (p q : ℚ) (iid : ℤ)
    (hoid : oid.isEmpty = false) (hss : ss.isEmpty = false)
    (hp : pyFloatOfString ps = some p) (hq : pyFloatOfString qs = some q)
    (hi : pyIntOfString istr = some iid) :
    message_handler_step st gi pd submit (.frame none) =
      (st, [.logMsg "error decoding json response"]) ∧
    message_handler_step st gi pd submit .timeout =
      (st, [.logMsg "no new fills, waiting"]) ∧
    message_handler_step (message_handler_step st gi pd submit (.frame none)).1
        gi pd submit (.frame (some m)) =
      message_handler_step st gi pd submit (.frame (some m)) ∧
    (message_handler_step (message_handler_step st gi pd submit (.frame none)).1
        gi pd submit (.frame (some
          ⟨some "fills", [], some ⟨some oid, some ps, some qs, some ss, some istr⟩, ""⟩))).2 =
      fillActions (.submitted (replacementCmd ss p q iid gi pd)
        (submit (replacementCmd ss p q iid gi pd))) ∧
    (message_handler_step (message_handler_step st gi pd submit (.frame none)).1
        gi pd submit (.frame (some ⟨some "orders", os, none, ""⟩))).1.orders =
      st.orders ++ os ∧
    (message_handler_step (message_handler_step st gi pd submit (.frame none)).1
        gi pd submit (.frame (some ⟨some ("ticker:" ++ a), [], none, t⟩))).1.tickers =
      dictInsert st.tickers (lastColonComponent ("ticker:" ++ a)) t := by
  refine ⟨rfl, rfl, rfl, ?_, rfl, ?_⟩
  · show (message_handler_step st gi pd submit _).2 = _
    rw [message_handler_step]
    simp only [handle_fills_message_valid oid ps qs ss istr gi pd p q iid
      hoid hss hp hq hi submit]
    rfl
  · show (message_handler_step st gi pd submit _).1.tickers = _
    rw [message_handler_step]
    simp only [String.data_append, listStartsWith_append, if_true, handle_ticker_message]

/-- Witness for malformed_frame_isolation: an undecodable frame followed
by a valid sell fill, an orders frame and a ticker frame, all from the
empty dispatch state. -/
theorem malformed_frame_isolation_witness :
    message_handler_step ⟨[], [], []⟩ 5 2 (fun _ => Except.ok "x") (.frame none) =
      (⟨[], [], []⟩, [.logMsg "error decoding json response"]) ∧
    message_handler_step ⟨[], [], []⟩ 5 2 (fun _ => Except.ok "x") .timeout =
      (⟨[], [], []⟩, [.logMsg "no new fills, waiting"]) ∧
    message_handler_step
        (message_handler_step ⟨[], [], []⟩ 5 2 (fun _ => Except.ok "x") (.frame none)).1
        5 2 (fun _ => Except.ok "x") (.frame (some ⟨none, [], none, ""⟩)) =
      message_handler_step ⟨[], [], []⟩ 5 2 (fun _ => Except.ok "x")
        (.frame (some ⟨none, [], none, ""⟩)) ∧
    (message_handler_step
        (message_handler_step ⟨[], [], []⟩ 5 2 (fun _ => Except.ok "x") (.frame none)).1
        5 2 (fun _ => Except.ok "x") (.frame (some ⟨some "fills", [],
          some ⟨some "1", some "3200.00", some "0.01", some "sell", some "2054"⟩, ""⟩))).2 =
      fillActions (.submitted (replacementCmd "sell" 3200 (mkRat 1 100) 2054 5 2)
        ((fun _ => Except.ok "x") (replacementCmd "sell" 3200 (mkRat 1 100) 2054 5 2))) ∧
    (message_handler_step
        (message_handler_step ⟨[], [], []⟩ 5 2 (fun _ => Except.ok "x") (.frame none)).1
        5 2 (fun _ => Except.ok "x")
        (.frame (some ⟨some "orders", ["o1"], none, ""⟩))).1.orders =
      DispatchState.orders ⟨[], [], []⟩ ++ ["o1"] ∧
    (message_handler_step
        (message_handler_step ⟨[], [], []⟩ 5 2 (fun _ => Except.ok "x") (.frame none)).1
        5 2 (fun _ => Except.ok "x")
        (.frame (some ⟨some ("ticker:" ++ "ETH-PERP"), [], none, "tick"⟩))).1.tickers =
      dictInsert (DispatchState.tickers ⟨[], [], []⟩)
        (lastColonComponent ("ticker:" ++ "ETH-PERP")) "tick" :=
  malformed_frame_isolation ⟨[], [], []⟩ 5 2 (fun _ => Except.ok "x")
    ⟨none, [], none, ""⟩ "1" "3200.00" "0.01" "sell" "2054" "ETH-PERP" "tick" ["o1"]
    3200 (mkRat 1 100) 2054 (by decide) (by decide) (by decide) (by decide) (by decide)

end Aevo
